import Mathlib

/-!
Verification model of the AISurvivalKit repository: the model registry and
store (`modelUtils`), the inference session manager (`LlamaService`), the
download UI controller (`ModelDownloader`) and the chat controller (`AIChat`).

Strings are modelled as lists of characters (`Str`).  JavaScript numbers are
modelled as rationals (`ℚ`); `NaN`/`Infinity` behaviour is out of scope of the
claims checked here.  External effects (the llama.rn engine, the RNFS file
system and transport, React state setters) are modelled by explicit state
records and by parameters giving each external call's outcome.
-/

namespace AISurvivalKit

/-- Strings as character lists, so that structural recursion and `decide` work. -/
abbrev Str := List Char

/-- `leadsWith p s` is true when `p` is an initial segment of `s`. -/
def leadsWith : Str → Str → Bool
  | [], _ => true
  | _ :: _, [] => false
  | p :: ps, c :: cs => p == c && leadsWith ps cs

/-- Split a string at the first occurrence of `pat` (the semantics of
JavaScript `String.indexOf`): returns the part before the match and the part
after it, or `none` when `pat` does not occur. -/
def splitAtFirst (pat : Str) : Str → Option (Str × Str)
  | [] => if pat = [] then some ([], []) else none
  | c :: rest =>
    if leadsWith pat (c :: rest) then some ([], (c :: rest).drop pat.length)
    else
      match splitAtFirst pat rest with
      | some (pre, post) => some (c :: pre, post)
      | none => none

/-- The backtick character, written by code to satisfy lexical constraints. -/
def backquoteChar : Char := Char.ofNat 96

/-- The apostrophe character. -/
def singleQuoteChar : Char := Char.ofNat 39

/-- `GetSubstitution` of the ECMAScript specification, restricted to a string
(non-regexp) pattern, which has no capture groups: in the replacement string,
a dollar sign followed by a dollar sign inserts a dollar sign, followed by an
ampersand inserts the matched substring, followed by a backquote inserts the
portion before the match, and followed by an apostrophe inserts the portion
after the match; any other character sequence is copied literally. -/
def getSubstitutionExpand (matched before after : Str) : Str → Str
  | [] => []
  | c :: rest =>
    if c = '$' then
      match rest with
      | [] => ['$']
      | d :: rest2 =>
        if d = '$' then '$' :: getSubstitutionExpand matched before after rest2
        else if d = '&' then matched ++ getSubstitutionExpand matched before after rest2
        else if d = backquoteChar then before ++ getSubstitutionExpand matched before after rest2
        else if d = singleQuoteChar then after ++ getSubstitutionExpand matched before after rest2
        else '$' :: d :: getSubstitutionExpand matched before after rest2
    else c :: getSubstitutionExpand matched before after rest

/-- JavaScript `t.replace(pat, rep)` with a string pattern: replaces the first
occurrence of `pat` in `t` by `rep` expanded through `GetSubstitution`;
returns `t` unchanged when `pat` does not occur. -/
def jsReplaceOnce (t pat rep : Str) : Str :=
  match splitAtFirst pat t with
  | none => t
  | some (pre, post) => pre ++ getSubstitutionExpand pat pre post rep ++ post

/-- Replacement of the first occurrence of `pat` by the raw text `rep`, with no
expansion of the replacement.  Modelled from the spec's words ("literal
placeholder replaced with the raw prompt text"), for comparison with the
source's `jsReplaceOnce`. -/
def literalReplaceOnce (t pat rep : Str) : Str :=
  match splitAtFirst pat t with
  | none => t
  | some (pre, post) => pre ++ rep ++ post

/-- The literal placeholder used by `LlamaService.generateResponse`. -/
def promptPlaceholder : Str := ("\x7bprompt\x7d").data

/-- Lines 63–68 of `LlamaService.ts`: the formatted prompt starts as the raw
prompt and, when the merged prompt template is truthy (non-empty), becomes
the template with the placeholder substituted via JavaScript `replace`. -/
def formatPrompt (template : Str) (prompt : Str) : Str :=
  if template ≠ [] then jsReplaceOnce template promptPlaceholder prompt else prompt

/-- A character counts as whitespace for `trim` (the ASCII part of the
JavaScript whitespace set; no claim depends on the Unicode spaces). -/
def isTrimmedChar (c : Char) : Bool := c = ' ' || c = '\n' || c = '\t' || c = '\r'

/-- JavaScript `String.trim`: strip whitespace from both ends. -/
def trim (s : Str) : Str :=
  ((s.dropWhile isTrimmedChar).reverse.dropWhile isTrimmedChar).reverse

/-- JavaScript `x || d` applied to a number `x`: `0` is falsy, so the fallback
`d` is produced exactly when `x = 0` (`NaN`, the only other falsy number, is
not representable in `ℚ`). -/
def jsOrNum (x d : ℚ) : ℚ := if x = 0 then d else x

/-! ## Inference session manager: `LlamaService.ts` -/

/-- The `LlamaOptions` record of `LlamaService.ts` with every field present
(the shape of `defaultOptions` and of merged options).  An empty
`promptTemplate` models an absent/falsy template. -/
structure LlamaOptions where
  modelPath : Str
  promptTemplate : Str
  temperature : ℚ
  maxTokens : ℚ
  contextSize : ℚ
  gpuLayers : ℚ
  useMLock : Bool
deriving DecidableEq

/-- A caller-supplied options record in which every field may be absent
(TypeScript `Partial` of `LlamaOptions`); `none` models an omitted key. -/
structure OptionsOverride where
  modelPath : Option Str := none
  promptTemplate : Option Str := none
  temperature : Option ℚ := none
  maxTokens : Option ℚ := none
  contextSize : Option ℚ := none
  gpuLayers : Option ℚ := none
  useMLock : Option Bool := none
deriving DecidableEq

/-- The spread merge `\x7b ...this.defaultOptions, ...options \x7d`: each field of the
override, when present, wins over the default. -/
def mergeOptions (d : LlamaOptions) (o : OptionsOverride) : LlamaOptions where
  modelPath := o.modelPath.getD d.modelPath
  promptTemplate := o.promptTemplate.getD d.promptTemplate
  temperature := o.temperature.getD d.temperature
  maxTokens := o.maxTokens.getD d.maxTokens
  contextSize := o.contextSize.getD d.contextSize
  gpuLayers := o.gpuLayers.getD d.gpuLayers
  useMLock := o.useMLock.getD d.useMLock

/-- The initial value of `LlamaService.defaultOptions` (lines 16–24). -/
def initialDefaultOptions : LlamaOptions where
  modelPath := []
  promptTemplate :=
    ("<start_of_turn>user\n\x7bprompt\x7d<end_of_turn>\n<start_of_turn>model\n").data
  temperature := 7/10
  maxTokens := 512
  contextSize := 2048
  gpuLayers := 0
  useMLock := true

/-- The state of the external engine: a counter of handles handed out by
`initLlama` and the list of handles that are live (created, not released). -/
structure EngineState where
  nextHandle : Nat
  live : List Nat
deriving DecidableEq

/-- The mutable fields of the `LlamaService` singleton.  The `context` field
holds the identity of the engine handle when one is referenced. -/
structure ServiceState where
  isInitialized : Bool
  context : Option Nat
  defaultOptions : LlamaOptions
deriving DecidableEq

/-- The fresh singleton state (lines 14–24). -/
def freshService : ServiceState where
  isInitialized := false
  context := none
  defaultOptions := initialDefaultOptions

/-- A fresh engine with no live handles. -/
def freshEngine : EngineState where
  nextHandle := 0
  live := []

/-- Result of `LlamaService.init`: the new service state, the new engine
state, and the returned boolean. -/
structure InitResult where
  state : ServiceState
  engine : EngineState
  success : Bool
deriving DecidableEq

/-- Lines 26–56 of `LlamaService.ts`.  `engineOk` gives the outcome of the
external `initLlama` call (`false` models it throwing).  The merged options
are computed by spread; an empty merged model path is falsy and fails the
check; on engine success a fresh handle is acquired and stored together with
the flag, and the merged model path is written back into `defaultOptions`;
on engine failure the catch clears `context` and the flag and returns
failure.  Note that no release of any previously held handle occurs. -/
def init (s : ServiceState) (o : OptionsOverride) (e : EngineState) (engineOk : Bool) :
    InitResult :=
  let merged := mergeOptions s.defaultOptions o
  if merged.modelPath = [] then { state := s, engine := e, success := false }
  else if engineOk then
    { state :=
        { isInitialized := true
          context := some e.nextHandle
          defaultOptions := { s.defaultOptions with modelPath := merged.modelPath } }
      engine := { nextHandle := e.nextHandle + 1, live := e.nextHandle :: e.live }
      success := true }
  else
    { state := { s with isInitialized := false, context := none }, engine := e, success := false }

/-- Result of `LlamaService.cleanup`: the new service and engine states (the
method itself returns no value and never throws). -/
structure CleanupResult where
  state : ServiceState
  engine : EngineState
deriving DecidableEq

/-- Lines 90–102 of `LlamaService.ts`.  When no context is held, nothing
happens.  When one is held, the external `release` is attempted
(`releaseOk` gives its outcome): on success the handle is torn down and
`context`/`isInitialized` are cleared; on failure the catch only logs, so
the state fields are left untouched. -/
def cleanup (s : ServiceState) (e : EngineState) (releaseOk : Bool) : CleanupResult :=
  match s.context with
  | none => { state := s, engine := e }
  | some h =>
    if releaseOk then
      { state := { s with context := none, isInitialized := false }
        engine := { e with live := e.live.erase h } }
    else { state := s, engine := e }

/-- The fixed stop-sequence set of the completion call (line 78). -/
def stopSequences : List Str :=
  [("<end_of_turn>").data, ("</s>").data, ("<|eot_id|>").data, ("User:").data, ("Llama:").data]

/-- The argument record of `this.context.completion(...)` (lines 74–80). -/
structure CompletionRequest where
  prompt : Str
  n_predict : ℚ
  temperature : ℚ
  stop : List Str
deriving DecidableEq

/-- The completion request issued by `generateResponse` for a given service
state, prompt and override — or `none` when the not-initialized guard of
lines 59–61 fires and no request is issued. -/
def completionRequest (s : ServiceState) (prompt : Str) (o : OptionsOverride) :
    Option CompletionRequest :=
  if s.isInitialized && s.context.isSome then
    let merged := mergeOptions s.defaultOptions o
    some
      { prompt := formatPrompt merged.promptTemplate prompt
        n_predict := jsOrNum merged.maxTokens 512
        temperature := jsOrNum merged.temperature (7/10)
        stop := stopSequences }
  else none

/-- The errors `generateResponse` can signal. -/
inductive GenError where
  | notInitialized
  | engineError
deriving DecidableEq

/-- Lines 58–88 of `LlamaService.ts`: signal the not-initialized error when
the guard fires; otherwise issue the completion request, re-throw an engine
error (`engineResult = .error ()`), and on success return the trimmed text. -/
def generateResponse (s : ServiceState) (prompt : Str) (o : OptionsOverride)
    (engineResult : Except Unit Str) : Except GenError Str :=
  match completionRequest s prompt o with
  | none => .error .notInitialized
  | some _ =>
    match engineResult with
    | .error _ => .error .engineError
    | .ok text => .ok (trim text)

/-! ## Model registry and store: `modelUtils.ts` -/

/-- The `ModelInfo` descriptor record. -/
structure ModelInfo where
  name : Str
  size : Str
  url : Str
  localPath : Str
deriving DecidableEq

/-- The first registry entry. -/
def gemmaModel : ModelInfo where
  name := ("Gemma 2B Instruct").data
  size := ("1.57GB").data
  url := ("https://huggingface.co/lmstudio-community/gemma-2-2b-it-GGUF/resolve/main/gemma-2-2b-it-IQ4_XS.gguf").data
  localPath := ("gemma-2-2b-it-IQ4_XS.gguf").data

/-- The second registry entry. -/
def phiModel : ModelInfo where
  name := ("Phi-2 (Small)").data
  size := ("1.7GB").data
  url := ("https://huggingface.co/TheBloke/phi-2-GGUF/resolve/main/phi-2.Q4_K_M.gguf").data
  localPath := ("phi-2.Q4_K_M.gguf").data

/-- The static registry `availableModels`. -/
def availableModels : List ModelInfo := [gemmaModel, phiModel]

/-- `getModelsDir`: the platform documents directory with `/models` appended. -/
def getModelsDir (documentsDir : Str) : Str := documentsDir ++ ("/models").data

/-- `getModelPath`: the models directory, a separator and the file name. -/
def getModelPath (documentsDir fileName : Str) : Str :=
  getModelsDir documentsDir ++ ("/").data ++ fileName

/-- The contents of the models directory: the names of the files present. -/
structure ModelsFS where
  files : List Str
deriving DecidableEq

/-- `checkModelExists`: true exactly when the file is present (RNFS errors,
which the source maps to `false`, are not distinguished from absence here). -/
def checkModelExists (fs : ModelsFS) (fileName : Str) : Bool :=
  fs.files.contains fileName

deriving instance DecidableEq for Except

/-- Result of one `downloadModel` call: the returned path or a thrown error,
the file system afterwards, and how many network transfers were started. -/
structure DownloadRun where
  result : Except Unit Str
  fs : ModelsFS
  transfers : Nat
deriving DecidableEq

/-- Lines 71–111 of `modelUtils.ts`.  `dirOk` gives the outcome of
`ensureModelsDir` (on failure the error propagates); when the target file
already exists the call short-circuits with its path and no transfer;
otherwise one transfer is performed, `status` being the transport's status
code: 200 writes the file and returns its path, anything else throws. -/
def downloadModel (documentsDir : Str) (m : ModelInfo) (fs : ModelsFS)
    (dirOk : Bool) (status : ℤ) : DownloadRun :=
  if dirOk then
    let path := getModelPath documentsDir m.localPath
    if checkModelExists fs m.localPath then { result := .ok path, fs := fs, transfers := 0 }
    else if status = 200 then
      { result := .ok path, fs := { files := m.localPath :: fs.files }, transfers := 1 }
    else { result := .error (), fs := fs, transfers := 1 }
  else { result := .error (), fs := fs, transfers := 0 }

/-! ## Download UI controller: `ModelDownloader.tsx` -/

/-- The component state of `ModelDownloader`: the per-descriptor progress
record and the `currentlyDownloading` marker (`none` models `null`). -/
structure DownloaderState where
  downloadProgress : List (Str × ℚ)
  currentlyDownloading : Option Str
deriving DecidableEq

/-- The immediate outcome of a call to `handleDownload`. -/
inductive DownloadRequestOutcome where
  /-- The busy guard fired: an alert was shown and the handler returned. -/
  | rejectedBusy
  /-- The confirmation dialog was shown; no state changes until the user
  presses Download. -/
  | confirmationShown
deriving DecidableEq

/-- Lines 32–90 of `ModelDownloader.tsx`, up to the first suspension: when
`currentlyDownloading` is truthy (set, and not the empty string) the request
is rejected with an alert and the handler returns without touching any
state; otherwise the confirmation dialog is shown, which also changes no
state by itself. -/
def handleDownload (st : DownloaderState) (_m : ModelInfo) :
    DownloaderState × DownloadRequestOutcome :=
  match st.currentlyDownloading with
  | some f => if f = [] then (st, .confirmationShown) else (st, .rejectedBusy)
  | none => (st, .confirmationShown)

/-- The JavaScript `Math.round`: round half toward positive infinity. -/
def jsRound (q : ℚ) : ℤ := ⌊q + 1/2⌋

/-- Line 94 of `modelUtils.ts`: the progress fraction handed to the callback
is `bytesWritten / contentLength`. -/
def reportProgress (bytesWritten contentLength : ℚ) : ℚ := bytesWritten / contentLength

/-- Lines 104–110 of `ModelDownloader.tsx`: the displayed percentage is
`Math.round(progress * 100)`, with no clamping. -/
def displayedPercent (progress : ℚ) : ℤ := jsRound (progress * 100)

/-! ## Chat controller: `AIChat.tsx` -/

/-- A chat message, reduced to the fields the claims inspect (the random id,
timestamp and avatar are elided). -/
structure ChatMsg where
  text : Str
  fromUser : Bool
deriving DecidableEq

/-- The component state of `AIChat` that `onSend` touches. -/
structure ChatState where
  messages : List ChatMsg
  isProcessing : Bool
deriving DecidableEq

/-- `GiftedChat.append(previousMessages, newMessages)`: the new messages are
placed in front of the previous ones (the list is most-recent-first). -/
def giftedAppend (prev new : List ChatMsg) : List ChatMsg := new ++ prev

/-- The fixed fallback error text of lines 108–117 of `AIChat.tsx`. -/
def fallbackErrorText : Str :=
  ("Sorry, I encountered an error while processing your request.").data

/-- Lines 71–125 of `AIChat.tsx`: an empty batch returns at once; otherwise
the user messages are appended, the processing flag is set, the session
manager's `generateResponse` runs (its outcome is `genResult`), the AI
response (trimmed) or the fixed fallback message is appended, and the
`finally` clause clears the processing flag on every path. -/
def onSend (st : ChatState) (newMessages : List ChatMsg)
    (genResult : Except Unit Str) : ChatState :=
  match newMessages with
  | [] => st
  | _ =>
    let afterUser := giftedAppend st.messages newMessages
    match genResult with
    | .ok resp =>
      { messages := giftedAppend afterUser [{ text := trim resp, fromUser := false }]
        isProcessing := false }
    | .error _ =>
      { messages := giftedAppend afterUser [{ text := fallbackErrorText, fromUser := false }]
        isProcessing := false }

/-! ## Shared concrete states used by witnesses and counterexamples -/

/-- A service state holding a live handle, with a bound model path. -/
def liveService : ServiceState where
  isInitialized := true
  context := some 0
  defaultOptions := { initialDefaultOptions with modelPath := ("m.gguf").data }

/-- An engine with exactly the handle held by `liveService` live. -/
def oneLiveEngine : EngineState where
  nextHandle := 1
  live := [0]

/-- An uninitialized-state predicate: the flag is down or no context is held
(either one makes the guard of `generateResponse` fire). -/
def isUninitializedState (s : ServiceState) : Prop :=
  s.isInitialized = false ∨ s.context = none

/-! ## Claim theorems -/

/-- C3: when a download is active (`currentlyDownloading` holds the active
registry descriptor's file name), `handleDownload` for any descriptor rejects
the request with the busy alert and returns the component state unchanged —
in particular the progress record and the currently-downloading marker are
untouched. -/
theorem handleDownload_single_flight (st : DownloaderState) (act m : ModelInfo)
    (hact : act ∈ availableModels)
    (hcur : st.currentlyDownloading = some act.localPath) :
    handleDownload st m = (st, DownloadRequestOutcome.rejectedBusy) := by
  have hne : act.localPath ≠ [] := by
    simp only [availableModels, List.mem_cons, List.not_mem_nil, or_false] at hact
    rcases hact with rfl | rfl <;> decide
  simp [handleDownload, hcur, hne]

/-- C3 witness: a concrete rejection while the Gemma download is active. -/
theorem handleDownload_single_flight_witness :
    handleDownload
        { downloadProgress := [(gemmaModel.localPath, 1/2)]
          currentlyDownloading := some gemmaModel.localPath } phiModel
      = ({ downloadProgress := [(gemmaModel.localPath, 1/2)]
           currentlyDownloading := some gemmaModel.localPath },
         DownloadRequestOutcome.rejectedBusy) :=
  handleDownload_single_flight _ gemmaModel phiModel (by decide) rfl

/-- Helper: a file just written is found by `checkModelExists`. -/
lemma checkModelExists_cons_self (fs : ModelsFS) (f : Str) :
    checkModelExists { files := f :: fs.files } f = true := by
  simp [checkModelExists, List.contains_cons]

/-- C4: with the target file initially absent and a successful transport
(status 200), the first `downloadModel` call performs exactly one transfer
and returns the local path, and the second call in sequence short-circuits
on the now-existing file, returning the same path with zero transfers,
whatever status the transport would have returned. -/
theorem downloadModel_idempotent (documentsDir : Str) (m : ModelInfo) (fs : ModelsFS)
    (s2 : ℤ) (habs : checkModelExists fs m.localPath = false) :
    downloadModel documentsDir m fs true 200
      = { result := .ok (getModelPath documentsDir m.localPath)
          fs := { files := m.localPath :: fs.files }
          transfers := 1 } ∧
    downloadModel documentsDir m { files := m.localPath :: fs.files } true s2
      = { result := .ok (getModelPath documentsDir m.localPath)
          fs := { files := m.localPath :: fs.files }
          transfers := 0 } := by
  constructor
  · simp [downloadModel, habs]
  · simp [downloadModel, checkModelExists_cons_self { files := fs.files } m.localPath]

/-- C4 witness: downloading the Gemma descriptor twice into an empty
directory. -/
theorem downloadModel_idempotent_witness :
    downloadModel ("/d").data gemmaModel { files := [] } true 200
      = { result := .ok (getModelPath ("/d").data gemmaModel.localPath)
          fs := { files := [gemmaModel.localPath] }
          transfers := 1 } ∧
    downloadModel ("/d").data gemmaModel { files := [gemmaModel.localPath] } true 200
      = { result := .ok (getModelPath ("/d").data gemmaModel.localPath)
          fs := { files := [gemmaModel.localPath] }
          transfers := 0 } :=
  downloadModel_idempotent ("/d").data gemmaModel { files := [] } 200 (by decide)

/-- C5: `generateResponse` signals the not-initialized error for every prompt
and override whenever the manager is Uninitialized (flag down or no context),
and in particular after any `cleanup` whose teardown call succeeded the
manager is in such a state, so release followed by generate signals the
error. -/
theorem generate_when_uninitialized_errors :
    (∀ (s : ServiceState) (p : Str) (o : OptionsOverride) (r : Except Unit Str),
        isUninitializedState s →
        generateResponse s p o r = .error .notInitialized) ∧
    (∀ (s : ServiceState) (e : EngineState) (p : Str) (o : OptionsOverride)
        (r : Except Unit Str),
        generateResponse (cleanup s e true).state p o r = .error .notInitialized) := by
  constructor
  · intro s p o r h
    rcases h with h | h <;> simp [generateResponse, completionRequest, h]
  · intro s e p o r
    rcases hc : s.context with _ | h <;>
      simp [cleanup, hc, generateResponse, completionRequest]

/-- C5 witness: generate on the fresh singleton and immediately after a
successful release of a live handle. -/
theorem generate_when_uninitialized_errors_witness :
    generateResponse freshService ("hi").data {} (.ok ("x").data)
        = .error .notInitialized ∧
    generateResponse (cleanup liveService oneLiveEngine true).state ("hi").data {}
        (.ok ("x").data) = .error .notInitialized :=
  ⟨generate_when_uninitialized_errors.1 freshService ("hi").data {} (.ok ("x").data)
      (Or.inl rfl),
   generate_when_uninitialized_errors.2 liveService oneLiveEngine ("hi").data {}
      (.ok ("x").data)⟩

/-- C7: when `generateResponse` fails, `onSend` with one user message ends
with exactly two new list entries in front of the previous ones — the fixed
fallback error message and the user's message — and the processing flag
false; the handler returns normally (the error is caught). -/
theorem onSend_failure_appends_two (st : ChatState) (m : ChatMsg) (e : Unit) :
    onSend st [m] (.error e)
      = { messages := { text := fallbackErrorText, fromUser := false } :: m :: st.messages
          isProcessing := false } := by
  simp [onSend, giftedAppend]

/-- C9: a caller-supplied zero is replaced by the default through the
falsy-or fallback: an override with `temperature = 0` produces a completion
request with temperature 0.7, and one with `maxTokens = 0` produces
`n_predict = 512`. -/
theorem zero_options_replaced_by_defaults (s : ServiceState) (p : Str)
    (o : OptionsOverride) (hinit : s.isInitialized = true)
    (hctx : s.context.isSome = true) :
    (o.temperature = some 0 →
      (completionRequest s p o).map CompletionRequest.temperature = some (7/10)) ∧
    (o.maxTokens = some 0 →
      (completionRequest s p o).map CompletionRequest.n_predict = some 512) := by
  constructor <;> intro h <;>
    simp [completionRequest, hinit, hctx, mergeOptions, h, jsOrNum]

/-- C9 witness: a ready state with an override specifying temperature 0 and
maxTokens 0. -/
theorem zero_options_replaced_by_defaults_witness :
    ((completionRequest liveService ("q").data
        { temperature := some 0, maxTokens := some 0 }).map CompletionRequest.temperature
      = some (7/10)) ∧
    ((completionRequest liveService ("q").data
        { temperature := some 0, maxTokens := some 0 }).map CompletionRequest.n_predict
      = some 512) :=
  ⟨(zero_options_replaced_by_defaults liveService ("q").data
      { temperature := some 0, maxTokens := some 0 } rfl rfl).1 rfl,
   (zero_options_replaced_by_defaults liveService ("q").data
      { temperature := some 0, maxTokens := some 0 } rfl rfl).2 rfl⟩

/-- C1 counterexample: `cleanup` on a live handle whose external `release`
call fails leaves `isInitialized = true` and the context still referenced —
the manager does not reach Uninitialized, contrary to the claim (the error
is swallowed, but the state transition never happens). -/
theorem cleanup_failed_teardown_stays_ready :
    (cleanup liveService oneLiveEngine false).state.isInitialized = true ∧
    (cleanup liveService oneLiveEngine false).state.context = some 0 := by
  decide

/-- C1 amended: `cleanup` is a no-op when no context is held, and on a live
handle a successful teardown clears the context and the flag (reaching
Uninitialized) and tears the handle down; a failed teardown is swallowed
(the call returns normally) but leaves the state — context reference and
initialized flag — unchanged, so Uninitialized is reached only when the
teardown call succeeds. -/
theorem cleanup_amended :
    (∀ (s : ServiceState) (e : EngineState) (b : Bool), s.context = none →
        cleanup s e b = { state := s, engine := e }) ∧
    (∀ (s : ServiceState) (e : EngineState) (h : Nat), s.context = some h →
        (cleanup s e true).state.isInitialized = false ∧
        (cleanup s e true).state.context = none ∧
        (cleanup s e true).engine.live = e.live.erase h) ∧
    (∀ (s : ServiceState) (e : EngineState),
        (cleanup s e false).state = s ∧ (cleanup s e false).engine = e) := by
  refine ⟨?_, ?_, ?_⟩
  · intro s e b hc; simp [cleanup, hc]
  · intro s e h hc; simp [cleanup, hc]
  · intro s e; rcases hc : s.context with _ | h <;> simp [cleanup, hc]

/-- C1 amended witness: a no-op on the fresh service, and a successful
teardown of the live service reaching Uninitialized. -/
theorem cleanup_amended_witness :
    cleanup freshService freshEngine true
        = { state := freshService, engine := freshEngine } ∧
    (cleanup liveService oneLiveEngine true).state.context = none :=
  ⟨cleanup_amended.1 freshService freshEngine true rfl,
   (cleanup_amended.2.1 liveService oneLiveEngine 0 rfl).2.1⟩

/-- The first `init` call of the re-initialization scenario. -/
def firstInit : InitResult :=
  init freshService { modelPath := some ("a.gguf").data } freshEngine true

/-- The second `init` call, issued while the manager is already Ready. -/
def secondInit : InitResult :=
  init firstInit.state { modelPath := some ("b.gguf").data } firstInit.engine true

/-- C2 counterexample: two successful `init` calls in sequence leave TWO live
engine handles — the handle acquired by the first call is never released
when the second call overwrites the context, refuting "at most one live
handle exists per process at any time". -/
theorem reinit_leaks_prior_handle :
    firstInit.success = true ∧ firstInit.state.context = some 0 ∧
    secondInit.success = true ∧ secondInit.state.context = some 1 ∧
    secondInit.engine.live = [1, 0] := by
  decide

/-- C2 amended: when `init` is called while the manager is Ready (holding a
live handle `h`) and succeeds, the prior handle is NOT released before the
new one is acquired: afterwards `h` is still live alongside the distinct
newly acquired handle — which is the only one the manager references — so
re-entrant re-initialization leaks the prior external handle. -/
theorem init_while_ready_leaks (s : ServiceState) (e : EngineState)
    (o : OptionsOverride) (h : Nat) (_hc : s.context = some h) (hl : h ∈ e.live)
    (hn : h < e.nextHandle) (hok : (init s o e true).success = true) :
    h ∈ (init s o e true).engine.live ∧
    e.nextHandle ∈ (init s o e true).engine.live ∧
    e.nextHandle ≠ h ∧
    (init s o e true).state.context = some e.nextHandle := by
  by_cases hp : (mergeOptions s.defaultOptions o).modelPath = []
  · simp [init, hp] at hok
  · simp only [init, hp, if_false, if_true, ite_true, ite_false, Bool.false_eq_true]
    refine ⟨?_, ?_, ne_of_gt hn, ?_⟩
    · simp [hp]
      exact Or.inr hl
    · simp [hp]
    · simp [hp]

/-- C2 amended witness: the second initialization of the concrete scenario
leaks handle 0. -/
theorem init_while_ready_leaks_witness :
    0 ∈ (init firstInit.state { modelPath := some ("b.gguf").data }
          firstInit.engine true).engine.live ∧
    firstInit.engine.nextHandle ∈ (init firstInit.state
          { modelPath := some ("b.gguf").data } firstInit.engine true).engine.live ∧
    firstInit.engine.nextHandle ≠ 0 ∧
    (init firstInit.state { modelPath := some ("b.gguf").data }
          firstInit.engine true).state.context = some firstInit.engine.nextHandle :=
  init_while_ready_leaks firstInit.state firstInit.engine
    { modelPath := some ("b.gguf").data } 0 (by decide) (by decide) (by decide) (by decide)

/-- The template of the specification's substitution scenario. -/
def abTemplate : Str := ("<a>\x7bprompt\x7d<b>").data

/-- A ready service state whose configured prompt template is `abTemplate`. -/
def abService : ServiceState where
  isInitialized := true
  context := some 0
  defaultOptions :=
    { initialDefaultOptions with
        modelPath := ("m.gguf").data, promptTemplate := abTemplate }

/-- C6 counterexample: with template `<a>\x7bprompt\x7d<b>` and prompt `$&`, the
prompt sent to the engine is `<a>\x7bprompt\x7d<b>` — JavaScript `replace`
expands `$&` in the replacement to the matched substring — and not
`<a>$&<b>`, so the prompt text is not inserted unchanged for every prompt
string. -/
theorem substitution_dollar_not_literal :
    (completionRequest abService ("$&").data {}).map CompletionRequest.prompt
        = some abTemplate ∧
    abTemplate ≠ ("<a>$&<b>").data := by
  decide

/-- Helper: `GetSubstitution` leaves a replacement without a dollar sign
unchanged. -/
lemma getSubstitutionExpand_of_not_dollar (matched before after : Str) (rep : Str)
    (h : '$' ∉ rep) : getSubstitutionExpand matched before after rep = rep := by
  induction rep with
  | nil => rfl
  | cons c rest ih =>
    have hc : ¬c = '$' := fun hcc => h (hcc ▸ List.mem_cons_self c rest)
    have hrest : '$' ∉ rest := fun hm => h (List.mem_cons_of_mem c hm)
    rw [getSubstitutionExpand.eq_def]
    simp only [hc, if_false, ite_false]
    rw [ih hrest]

/-- Helper: JavaScript `replace` agrees with raw-text replacement exactly
when the replacement contains no dollar sign. -/
lemma jsReplaceOnce_of_not_dollar (t pat rep : Str) (h : '$' ∉ rep) :
    jsReplaceOnce t pat rep = literalReplaceOnce t pat rep := by
  unfold jsReplaceOnce literalReplaceOnce
  cases hs : splitAtFirst pat t with
  | none => rfl
  | some pr => cases pr with
    | mk pre post => simp [getSubstitutionExpand_of_not_dollar pat pre post rep h]

/-- C6 amended: the substitution is JavaScript `String.replace` of the first
occurrence of the literal placeholder, which expands dollar escapes in the
prompt; it coincides with literal raw-text insertion for every prompt
containing no dollar character, and in particular the scenario template
`<a>\x7bprompt\x7d<b>` with prompt `hi` is sent as exactly `<a>hi<b>`. -/
theorem substitution_amended :
    (∀ (template p : Str), '$' ∉ p →
        jsReplaceOnce template promptPlaceholder p
          = literalReplaceOnce template promptPlaceholder p) ∧
    (completionRequest abService ("hi").data {}).map CompletionRequest.prompt
        = some (("<a>hi<b>").data) := by
  constructor
  · intro t p h; exact jsReplaceOnce_of_not_dollar t promptPlaceholder p h
  · decide

/-- C6 amended witness: the dollar-free prompt `hi` is inserted literally. -/
theorem substitution_amended_witness :
    jsReplaceOnce abTemplate promptPlaceholder ("hi").data
      = literalReplaceOnce abTemplate promptPlaceholder ("hi").data :=
  substitution_amended.1 abTemplate ("hi").data (by decide)

/-- C8 counterexample: a transport report with `bytesWritten = 3` and
`contentLength = 2` produces the progress fraction 3/2, outside [0,1], and
the UI — which rounds but never clamps — displays 150%. -/
theorem progress_exceeds_one :
    reportProgress 3 2 = 3/2 ∧ ¬(reportProgress 3 2 ≤ 1) ∧
    displayedPercent (reportProgress 3 2) = 150 := by
  refine ⟨by norm_num [reportProgress], by norm_num [reportProgress], ?_⟩
  have h : reportProgress 3 2 * 100 + 1/2 = (301 : ℚ)/2 := by
    norm_num [reportProgress]
  simp only [displayedPercent, jsRound]
  rw [h, Int.floor_eq_iff]
  constructor <;> norm_num

/-- C8 amended: the progress fraction `bytesWritten / contentLength` lies in
[0,1] — and the displayed `Math.round(progress * 100)` lies in 0–100 —
provided the transport reports `0 ≤ bytesWritten ≤ contentLength` with a
positive `contentLength`; the UI applies rounding only, no clamping, so
reports outside that range produce out-of-range displays. -/
theorem progress_bounds_amended (bw cl : ℚ) (h0 : 0 ≤ bw) (h1 : bw ≤ cl)
    (h2 : 0 < cl) :
    0 ≤ reportProgress bw cl ∧ reportProgress bw cl ≤ 1 ∧
    0 ≤ displayedPercent (reportProgress bw cl) ∧
    displayedPercent (reportProgress bw cl) ≤ 100 := by
  have hp0 : 0 ≤ bw / cl := div_nonneg h0 (le_of_lt h2)
  have hp1 : bw / cl ≤ 1 := (div_le_one h2).mpr h1
  simp only [reportProgress, displayedPercent, jsRound]
  refine ⟨hp0, hp1, ?_, ?_⟩
  · apply Int.le_floor.mpr
    push_cast
    nlinarith
  · have hlt : bw / cl * 100 + 1/2 < ((101 : ℤ) : ℚ) := by push_cast; nlinarith
    have h3 := Int.floor_lt.mpr hlt
    omega

/-- C8 amended witness: a report of 1 byte of 2 displays 50%. -/
theorem progress_bounds_amended_witness :
    0 ≤ reportProgress 1 2 ∧ reportProgress 1 2 ≤ 1 ∧
    0 ≤ displayedPercent (reportProgress 1 2) ∧
    displayedPercent (reportProgress 1 2) ≤ 100 :=
  progress_bounds_amended 1 2 (by norm_num) (by norm_num) (by norm_num)

/-- A successful initialization binding the path `m.gguf`. -/
def boundInit : InitResult :=
  init freshService { modelPath := some ("m.gguf").data } freshEngine true

/-- C10 counterexample: after a successful `init` binding `m.gguf`, a second
`init` passing an explicitly empty model path does NOT pass the
non-empty-path check — the empty override wins the spread merge over the
stored default — so the call returns failure and leaves the state unchanged,
contrary to the claim that an empty path re-initializes against the stored
model. -/
theorem empty_path_override_fails :
    boundInit.success = true ∧
    boundInit.state.defaultOptions.modelPath = ("m.gguf").data ∧
    init boundInit.state { modelPath := some [] } boundInit.engine true
      = { state := boundInit.state, engine := boundInit.engine, success := false } := by
  refine ⟨by decide, by decide, ?_⟩
  simp [init, mergeOptions]

/-- C10 amended: a successful `init` stores the bound (non-empty) model path
into the manager's defaults; a subsequent `init` that OMITS the model path
merges in the stored path, passes the non-empty-path check and
re-initializes against the previously bound model file — but a subsequent
`init` passing an explicitly empty path fails the check and returns
failure. -/
theorem stored_path_reinit_amended (s : ServiceState) (e : EngineState) (p : Str)
    (hp : p ≠ []) :
    (init s { modelPath := some p } e true).state.defaultOptions.modelPath = p ∧
    (mergeOptions (init s { modelPath := some p } e true).state.defaultOptions
        {}).modelPath = p ∧
    (init (init s { modelPath := some p } e true).state {}
        (init s { modelPath := some p } e true).engine true).success = true ∧
    (init (init s { modelPath := some p } e true).state { modelPath := some [] }
        (init s { modelPath := some p } e true).engine true).success = false := by
  have h1 : init s { modelPath := some p } e true
      = { state :=
            { isInitialized := true
              context := some e.nextHandle
              defaultOptions := { s.defaultOptions with modelPath := p } }
          engine := { nextHandle := e.nextHandle + 1, live := e.nextHandle :: e.live }
          success := true } := by
    simp [init, mergeOptions, hp]
  rw [h1]
  refine ⟨rfl, ?_, ?_, ?_⟩
  · simp [mergeOptions]
  · simp [init, mergeOptions, hp]
  · simp [init, mergeOptions]

/-- C10 amended witness: the concrete scenario with path `m.gguf`. -/
theorem stored_path_reinit_amended_witness :
    (init freshService { modelPath := some ("m.gguf").data } freshEngine
        true).state.defaultOptions.modelPath = ("m.gguf").data ∧
    (mergeOptions (init freshService { modelPath := some ("m.gguf").data } freshEngine
        true).state.defaultOptions {}).modelPath = ("m.gguf").data ∧
    (init (init freshService { modelPath := some ("m.gguf").data } freshEngine
          true).state {}
        (init freshService { modelPath := some ("m.gguf").data } freshEngine
          true).engine true).success = true ∧
    (init (init freshService { modelPath := some ("m.gguf").data } freshEngine
          true).state { modelPath := some [] }
        (init freshService { modelPath := some ("m.gguf").data } freshEngine
          true).engine true).success = false :=
  stored_path_reinit_amended freshService freshEngine ("m.gguf").data (by decide)

end AISurvivalKit
